import Mathlib

/-!
Shallow embedding of `src/homework.py` (a Telegram homework-status notifier).

Python values flowing through the program (parsed JSON payloads, `dict.get`
results, the timestamp cursor) are modelled by the inductive `JValue`.
Python exceptions are modelled by `PyError`; a Python function that can raise
becomes a Lean function into `Except PyError _`.  External capabilities (the
HTTP transport and the Telegram send primitive) are passed in as oracles:
the transport as a `FetchOutcome` value, the send capability as a
`sendOk : Nat → Bool` oracle consulted once per `send_message` call, in call
order.
-/

namespace HomeworkBot

/-- A Python value as it appears in this program: `None`, booleans, integers,
strings, lists and string-keyed dicts (association lists, unique keys,
insertion order — the shape `json` parsing produces). -/
inductive JValue where
  | null
  | bool (b : Bool)
  | int (n : Int)
  | str (s : String)
  | list (elems : List JValue)
  | dict (fields : List (String × JValue))
deriving Repr

/-- The Python exceptions this program can raise.  Every constructor carries
`str(exception)` — for `KeyError` that is the `repr` of its argument, which is
how CPython renders it, and how an f-string `{error}` interpolates it. -/
inductive PyError where
  | typeError (msg : String)
  | keyError (msg : String)
  | nameError (msg : String)
  | valueError (msg : String)
  | attributeError (msg : String)
  | telegramError (msg : String)
  | requestException (msg : String)
deriving Repr, DecidableEq

/-- The apostrophe character (U+0027). -/
def apos : Char := Char.ofNat 39

/-- CPython `repr` of a string: single-quoted, or double-quoted when the text
itself contains a single quote (inner escaping is not needed for any string
this program produces). -/
def strReprPy (s : String) : String :=
  if s.data.any (fun c => c = apos) then "\x22" ++ s ++ "\x22"
  else "\x27" ++ s ++ "\x27"

/-- `str(type(v))` in CPython, e.g. `<class \x27dict\x27>`. -/
def pyTypeName : JValue → String
  | .null => "<class \x27NoneType\x27>"
  | .bool _ => "<class \x27bool\x27>"
  | .int _ => "<class \x27int\x27>"
  | .str _ => "<class \x27str\x27>"
  | .list _ => "<class \x27list\x27>"
  | .dict _ => "<class \x27dict\x27>"

/-- `dict.get(key)`: the first binding of `key`, or `None` when absent. -/
def assocGet : List (String × JValue) → String → JValue
  | [], _ => .null
  | (k, v) :: rest, key => if k = key then v else assocGet rest key

/-- `response.get(key)` on a value already known to be a dict (`check_response`
guarantees this before the only use, line 141); on a non-dict the fallback
`.null` is never reached on any program path. -/
def dictGetOr (v : JValue) (key : String) : JValue :=
  match v with
  | .dict fields => assocGet fields key
  | _ => .null

mutual

/-- CPython `repr` of a value, used for f-string rendering of lists/dicts and
for `str(KeyError(key))`. -/
def pyRepr : JValue → String
  | .null => "None"
  | .bool b => if b then "True" else "False"
  | .int n => toString n
  | .str s => strReprPy s
  | .list xs => "[" ++ pyReprElems xs ++ "]"
  | .dict fs => "\x7b" ++ pyReprFields fs ++ "\x7d"

/-- Comma-separated `repr`s of the elements of a Python list. -/
def pyReprElems : List JValue → String
  | [] => ""
  | [x] => pyRepr x
  | x :: rest => pyRepr x ++ ", " ++ pyReprElems rest

/-- Comma-separated `key: value` `repr`s of the entries of a Python dict. -/
def pyReprFields : List (String × JValue) → String
  | [] => ""
  | [(k, v)] => strReprPy k ++ ": " ++ pyRepr v
  | (k, v) :: rest => strReprPy k ++ ": " ++ pyRepr v ++ ", " ++ pyReprFields rest

end
/-- CPython `str` of a value: the raw text for strings, `repr` otherwise
(on `None`, booleans and integers `str` and `repr` coincide). -/
def pyStr : JValue → String
  | .str s => s
  | .null => "None"
  | .bool b => if b then "True" else "False"
  | .int n => toString n
  | .list xs => pyRepr (.list xs)
  | .dict fs => pyRepr (.dict fs)

/-- `str(exception)`: each constructor already stores it. -/
def pyErrStr : PyError → String
  | .typeError m => m
  | .keyError m => m
  | .nameError m => m
  | .valueError m => m
  | .attributeError m => m
  | .telegramError m => m
  | .requestException m => m

/-- `len(v)`: defined for strings, lists and dicts; `TypeError` otherwise,
with CPython's message. -/
def pyLen : JValue → Except PyError Nat
  | .str s => .ok s.length
  | .list xs => .ok xs.length
  | .dict fs => .ok fs.length
  | .null => .error (.typeError "object of type \x27NoneType\x27 has no len()")
  | .bool _ => .error (.typeError "object of type \x27bool\x27 has no len()")
  | .int _ => .error (.typeError "object of type \x27int\x27 has no len()")

/-- `v.get(key)`: the dict method; every other type raises `AttributeError`. -/
def pyGet : JValue → String → Except PyError JValue
  | .dict fs, key => .ok (assocGet fs key)
  | .null, _ => .error (.attributeError "\x27NoneType\x27 object has no attribute \x27get\x27")
  | .bool _, _ => .error (.attributeError "\x27bool\x27 object has no attribute \x27get\x27")
  | .int _, _ => .error (.attributeError "\x27int\x27 object has no attribute \x27get\x27")
  | .str _, _ => .error (.attributeError "\x27str\x27 object has no attribute \x27get\x27")
  | .list _, _ => .error (.attributeError "\x27list\x27 object has no attribute \x27get\x27")

/-- Module constants (lines 20–29 of the source). -/
def RETRY_TIME : Nat := 600

def ENDPOINT : String := "https://practicum.yandex.ru/api/user_api/homework_statuses/"

def HOMEWORK_STATUSES : List (String × String) :=
  [("approved", "Работа проверена: ревьюеру всё понравилось. Ура!"),
   ("reviewing", "Работа взята на проверку ревьюером."),
   ("rejected", "Работа проверена: у ревьюера есть замечания.")]

/-- Association-list lookup for the verdict table. -/
def lookupVerdict : List (String × String) → String → Option String
  | [], _ => none
  | (k, v) :: rest, key => if k = key then some v else lookupVerdict rest key

/-- `HOMEWORK_STATUSES[key]` for an arbitrary Python key: unhashable keys
(lists, dicts) raise `TypeError`; a missing hashable key raises `KeyError`
whose `str` is the `repr` of the key. -/
def verdictSubscript : JValue → Except PyError String
  | .list _ => .error (.typeError "unhashable type: \x27list\x27")
  | .dict _ => .error (.typeError "unhashable type: \x27dict\x27")
  | .str s =>
    match lookupVerdict HOMEWORK_STATUSES s with
    | some v => .ok v
    | none => .error (.keyError (strReprPy s))
  | key => .error (.keyError (pyRepr key))

/-- `check_response` (lines 74–89): raise `TypeError` when the response is not
a dict; fetch `response.get(\x27homeworks\x27)`; raise `TypeError` when that
is not a list; otherwise return it unchanged. -/
def check_response (response : JValue) : Except PyError (List JValue) :=
  match response with
  | .dict fields =>
    match assocGet fields "homeworks" with
    | .list xs => .ok xs
    | other =>
      .error (.typeError
        ("Некорректный тип: " ++ pyTypeName other ++ " у списка \x22homeworks\x22."))
  | other =>
    .error (.typeError
      ("Cодержится некорректный тип ответа от http-запроса: " ++ pyTypeName other ++ "."))

/-- `parse_status` (lines 92–104).  The source guards the extraction of
`homework_name` and `homework_status` with `if len(homework) > 0:`; when the
guard is false the subsequent subscript `HOMEWORK_STATUSES[homework_status]`
evaluates an unbound local and raises `UnboundLocalError` (a `NameError`)
inside the `try:`, which the `except KeyError:` clause does not catch.  When
the subscript raises `KeyError`, the handler re-raises
`KeyError(f\x27Недокументированный статус \x7berror\x7d в домашней работы.\x27)`,
where `\x7berror\x7d` renders as `str` of the caught exception. -/
def parse_status (homework : JValue) : Except PyError String :=
  match pyLen homework with
  | .error e => .error e
  | .ok n =>
    if 0 < n then
      match pyGet homework "homework_name" with
      | .error e => .error e
      | .ok homework_name =>
        match pyGet homework "status" with
        | .error e => .error e
        | .ok homework_status =>
          match verdictSubscript homework_status with
          | .ok verdict =>
            .ok ("Изменился статус проверки работы \x22" ++ pyStr homework_name
                  ++ "\x22. " ++ verdict)
          | .error (.keyError errStr) =>
            .error (.keyError (strReprPy
              ("Недокументированный статус " ++ errStr ++ " в домашней работы.")))
          | .error e => .error e
    else
      .error (.nameError
        "local variable \x27homework_status\x27 referenced before assignment")

/-- `send_message` (lines 39–46): one call of the Telegram send capability.
`delivered` is the capability's outcome; on failure the function raises
`TelegramError(\x27Возникла ошибка при отправке сообщения.\x27)`. -/
def send_message (delivered : Bool) : Except PyError Unit :=
  if delivered then .ok ()
  else .error (.telegramError "Возникла ошибка при отправке сообщения.")

/-- The HTTP transport's behaviour for one request: either the request itself
raises (`requests.RequestException`, carrying its text), or a response arrives
with a status code and a body that is or is not valid JSON. -/
inductive FetchOutcome where
  | netError (exc : String)
  | response (status_code : Nat) (body : Option JValue)
deriving Repr

/-- `get_api_answer` (lines 49–71): re-raise a transport error with a
diagnostic, reject a non-200 status code with `ValueError`, reject a non-JSON
body with `ValueError`, otherwise return the parsed body.  (The
`current_timestamp or int(time.time())` on line 51 only shapes the request
parameters, which live inside the transport oracle.) -/
def get_api_answer (transport : FetchOutcome) : Except PyError JValue :=
  match transport with
  | .netError exc =>
    .error (.requestException
      ("Сбой в работе программы: Эндпоинт " ++ ENDPOINT
        ++ " недоступен. Код ответа API: " ++ exc))
  | .response code body =>
    if code ≠ 200 then
      .error (.valueError
        ("Код ответа сервера не соответствует ожидаемому при запросе "
          ++ ENDPOINT ++ "."))
    else
      match body with
      | some j => .ok j
      | none => .error (.valueError "Ответ сервера не в формате json.")

/-- The three environment secrets read at import time (lines 16–18); `none`
models an unset variable. -/
structure Env where
  PRACTICUM_TOKEN : Option String
  TELEGRAM_TOKEN : Option String
  TELEGRAM_CHAT_ID : Option String

/-- Python truthiness of an `os.getenv` result: `None` and the empty string
are falsy. -/
def pyTruthy : Option String → Bool
  | none => false
  | some s => !s.data.isEmpty

/-- `check_tokens` (lines 107–120): `assert` each secret in turn; on the first
falsy one the `AssertionError` handler sets the flag to `False` and logs one
critical message (the interpolated `\x7berror\x7d` is the empty `str` of a
bare `AssertionError`).  Returns the flag and the critical-log lines. -/
def check_tokens (env : Env) : Bool × List String :=
  if pyTruthy env.PRACTICUM_TOKEN && pyTruthy env.TELEGRAM_TOKEN
      && pyTruthy env.TELEGRAM_CHAT_ID then
    (true, [])
  else
    (false, ["Отсутствует обязательная переменная окружения: ."])

/-- Line 127: the polling loop body runs only under `if check_tokens():`. -/
def mainEntersLoop (env : Env) : Bool := (check_tokens env).1

/-- The `for homework in homeworks:` loop of `main` (lines 137–140): translate
each record and call `send_message`; `k` counts send-capability calls made so
far (the oracle index of the next call), `acc` the messages already delivered.
On an exception the loop stops with the error, the delivered messages, and the
next oracle index. -/
def notifyLoop (sendOk : Nat → Bool) :
    Nat → List JValue → List String →
    Except (PyError × List String × Nat) (List String × Nat)
  | k, [], acc => .ok (acc, k)
  | k, hw :: rest, acc =>
    match parse_status hw with
    | .error e => .error (e, acc, k)
    | .ok msg =>
      match send_message (sendOk k) with
      | .ok _ => notifyLoop sendOk (k + 1) rest (acc ++ [msg])
      | .error e => .error (e, acc, k + 1)

/-- The `try:` block of one iteration of `main`'s loop (lines 129–142), given
the already-resolved fetch result: validate, translate-and-send each record,
then evaluate `response.get(\x27current_date\x27)` as the new cursor.  On an
exception: the error, the messages delivered before it, and the next send
oracle index. -/
def tryBody (fetchRes : Except PyError JValue) (sendOk : Nat → Bool) :
    Except (PyError × List String × Nat) (List String × Nat × JValue) :=
  match fetchRes with
  | .error e => .error (e, [], 0)
  | .ok response =>
    match check_response response with
    | .error e => .error (e, [], 0)
    | .ok homeworks =>
      match notifyLoop sendOk 0 homeworks [] with
      | .error err => .error err
      | .ok (sent, k) => .ok (sent, k, dictGetOr response "current_date")

/-- What one iteration of `main`'s `while True:` loop leads to: either control
reaches the next iteration (with the cursor value it will carry and the
messages delivered), or an exception escapes the loop and the process dies. -/
inductive StepOutcome where
  | looped (cursor : JValue) (sent : List String)
  | crashed (e : PyError) (sent : List String)
deriving Repr

/-- One iteration of `main`'s loop (lines 128–150): run the `try:` body; on
success keep its cursor; on an exception run the `except Exception:` handler
(lines 144–148), which logs `f\x27Сбой в работе программы: \x7berror\x7d\x27`
and calls `send_message` again for the diagnostic — that call is *not* inside
any `try:`, so its own failure escapes the loop. -/
def loopStep (fetchRes : Except PyError JValue) (sendOk : Nat → Bool)
    (c : JValue) : StepOutcome :=
  match tryBody fetchRes sendOk with
  | .ok (sent, _, newCursor) => .looped newCursor sent
  | .error (e, sent, k) =>
    match send_message (sendOk k) with
    | .ok _ => .looped c (sent ++ ["Сбой в работе программы: " ++ pyErrStr e])
    | .error e2 => .crashed e2 sent

/-- The messages actually delivered to the send capability in one iteration. -/
def sentOf : StepOutcome → List String
  | .looped _ sent => sent
  | .crashed _ sent => sent

/-! ### Helper lemmas -/

/-- `dict.get` yields `None` when no binding carries the key. -/
theorem assocGet_eq_null_of_not_mem (fields : List (String × JValue)) (key : String)
    (h : ∀ p ∈ fields, p.1 ≠ key) :
    assocGet fields key = JValue.null := by
  induction fields with
  | nil => rfl
  | cons p rest ih =>
    obtain ⟨k, v⟩ := p
    have hk : k ≠ key := h (k, v) (List.mem_cons_self _ _)
    simpa [assocGet, hk] using ih (fun q hq => h q (List.mem_cons_of_mem _ hq))

/-- Python truthiness of an environment read: truthy exactly for a set,
non-empty value. -/
theorem pyTruthy_iff (o : Option String) :
    pyTruthy o = true ↔ ∃ s, o = some s ∧ s ≠ "" := by
  cases o with
  | none => simp [pyTruthy]
  | some s =>
    simp [pyTruthy, List.isEmpty_iff]
    exact not_congr ⟨fun h => String.ext h, fun h => by rw [h]⟩

/-- The returned flag of `check_tokens` is the conjunction of the three
truthiness tests. -/
theorem check_tokens_fst (env : Env) :
    (check_tokens env).1
      = (pyTruthy env.PRACTICUM_TOKEN && pyTruthy env.TELEGRAM_TOKEN
          && pyTruthy env.TELEGRAM_CHAT_ID) := by
  by_cases h : (pyTruthy env.PRACTICUM_TOKEN && pyTruthy env.TELEGRAM_TOKEN
      && pyTruthy env.TELEGRAM_CHAT_ID) = true
  · simp [check_tokens, h]
  · simp [check_tokens, h]

/-! ### Claim theorems -/

/-- C1 (counterexample): a successful poll cycle over the valid payload
`\x7b"homeworks": []\x7d`, which has no `current_date` field, does *not* leave
the cursor at its previous value `123`: line 141 assigns
`response.get(\x27current_date\x27)`, i.e. `None`. -/
theorem cursor_unchanged_counterexample :
    loopStep (Except.ok (JValue.dict [("homeworks", JValue.list [])])) (fun _ => true)
        (JValue.int 123)
      = StepOutcome.looped JValue.null []
    ∧ JValue.null ≠ JValue.int 123 :=
  ⟨rfl, fun h => JValue.noConfusion h⟩

/-- C1 (amended): after one successful poll cycle the cursor is exactly
`response.get(\x27current_date\x27)` — the field's value when present, and
`None` (not the previous cursor) when absent. -/
theorem cursor_becomes_current_date (fields : List (String × JValue))
    (sendOk : Nat → Bool) (c : JValue) (xs : List JValue) (sent : List String) (k : Nat)
    (h1 : assocGet fields "homeworks" = JValue.list xs)
    (h2 : notifyLoop sendOk 0 xs [] = .ok (sent, k)) :
    loopStep (Except.ok (JValue.dict fields)) sendOk c
      = StepOutcome.looped (assocGet fields "current_date") sent
    ∧ ((∀ p ∈ fields, p.1 ≠ "current_date") →
        assocGet fields "current_date" = JValue.null) := by
  constructor
  · simp [loopStep, tryBody, check_response, h1, h2, dictGetOr]
  · exact assocGet_eq_null_of_not_mem fields "current_date"

/-- C1 (witness): the amended statement at the concrete payload
`\x7b"homeworks": []\x7d` and cursor `5`. -/
theorem cursor_becomes_current_date_witness :
    loopStep (Except.ok (JValue.dict [("homeworks", JValue.list [])])) (fun _ => true)
        (JValue.int 5)
      = StepOutcome.looped JValue.null [] :=
  (cursor_becomes_current_date [("homeworks", JValue.list [])] (fun _ => true)
      (JValue.int 5) [] [] 0 rfl rfl).1

/-- C2 (code bug): fed the empty record, `parse_status` raises
`UnboundLocalError` (a `NameError`) — the extraction of `name`/`status` is
guarded by `if len(homework) > 0:`, so for `\x7b\x7d` the locals are unbound
when the verdict subscript evaluates them, and the resulting error is not the
unknown-status `KeyError` the contract allows. -/
theorem parse_status_empty_record_unbound_local :
    parse_status (JValue.dict []) = .error (.nameError
      "local variable \x27homework_status\x27 referenced before assignment") := rfl

/-- C3 (counterexample): a cycle fails on a malformed payload, and the send
capability is down; the handler's `send_message` call on line 147 is not
inside any `try:`, so the `TelegramError` escapes the loop — the process
crashes instead of sleeping and continuing. -/
theorem diagnostic_send_failure_escapes :
    loopStep (Except.ok (JValue.dict [("homeworks", JValue.str "not-a-list")]))
        (fun _ => false) (JValue.int 0)
      = StepOutcome.crashed
          (.telegramError "Возникла ошибка при отправке сообщения.") [] := rfl

/-- C3 (amended): every error raised inside the `try:` block — fetch,
validation, translation or a notification-send failure — is caught by the
`except Exception:` handler, which formats and relays a diagnostic and leaves
the cursor unchanged *when the diagnostic send succeeds*; when the diagnostic
send itself fails, its `TelegramError` escapes the loop and terminates the
process. -/
theorem loop_catch_and_relay (fetchRes : Except PyError JValue) (sendOk : Nat → Bool)
    (c : JValue) (e : PyError) (sent : List String) (k : Nat)
    (h : tryBody fetchRes sendOk = .error (e, sent, k)) :
    (sendOk k = true →
      loopStep fetchRes sendOk c
        = StepOutcome.looped c (sent ++ ["Сбой в работе программы: " ++ pyErrStr e]))
    ∧ (sendOk k = false →
      loopStep fetchRes sendOk c
        = StepOutcome.crashed
            (.telegramError "Возникла ошибка при отправке сообщения.") sent) := by
  constructor <;> intro hs <;> simp [loopStep, h, send_message, hs]

/-- C3 (witness): a cycle over a non-dict payload with a live send capability:
the handler relays the diagnostic and the loop continues with the old
cursor. -/
theorem loop_catch_and_relay_witness :
    loopStep (Except.ok (JValue.str "oops")) (fun _ => true) (JValue.int 7)
      = StepOutcome.looped (JValue.int 7)
          ["Сбой в работе программы: Cодержится некорректный тип ответа от http-запроса: <class \x27str\x27>."] :=
  (loop_catch_and_relay (Except.ok (JValue.str "oops")) (fun _ => true) (JValue.int 7)
      _ _ _ rfl).1 rfl

/-- C4 (code bug): for the record `\x7b\x7d` — whose `status` is absent, hence
not a key of the verdict mapping — the cycle fails with the unbound-local
`NameError`, not with a `KeyError` naming the status; the relayed diagnostic
shows the `NameError` text, and the cursor is left unchanged. -/
theorem unknown_status_empty_record_cycle :
    loopStep (Except.ok (JValue.dict [("homeworks", JValue.list [JValue.dict []])]))
        (fun _ => true) (JValue.int 55)
      = StepOutcome.looped (JValue.int 55)
          ["Сбой в работе программы: local variable \x27homework_status\x27 referenced before assignment"] := rfl

/-- C5: `check_response` rejects a non-mapping top level with a `TypeError`
naming the received type; rejects an absent or non-sequence `homeworks` field
with a `TypeError` naming the key and the value's type; returns the
`homeworks` sequence on every passing input; and a cycle whose validation
fails delivers no notification (the validator never reaches the send
capability — as a `Lean` function it is pure by construction). -/
theorem check_response_malformed_spec (r : JValue) :
    ((∀ f, r ≠ JValue.dict f) →
      check_response r = .error (.typeError
        ("Cодержится некорректный тип ответа от http-запроса: " ++ pyTypeName r ++ ".")))
    ∧ (∀ f, r = JValue.dict f →
        (∀ xs, assocGet f "homeworks" ≠ JValue.list xs) →
        check_response r = .error (.typeError
          ("Некорректный тип: " ++ pyTypeName (assocGet f "homeworks")
            ++ " у списка \x22homeworks\x22.")))
    ∧ (∀ f xs, r = JValue.dict f → assocGet f "homeworks" = JValue.list xs →
        check_response r = .ok xs)
    ∧ (∀ sendOk e, check_response r = .error e →
        tryBody (Except.ok r) sendOk = .error (e, [], 0)) := by
  refine ⟨?_, ?_, ?_, ?_⟩
  · intro h
    cases r with
    | dict f => exact absurd rfl (h f)
    | null => rfl
    | bool b => rfl
    | int n => rfl
    | str s => rfl
    | list xs => rfl
  · intro f hr hne
    subst hr
    cases hh : assocGet f "homeworks" with
    | list xs => exact absurd hh (hne xs)
    | null => simp [check_response, hh]
    | bool b => simp [check_response, hh]
    | int n => simp [check_response, hh]
    | str s => simp [check_response, hh]
    | dict g => simp [check_response, hh]
  · intro f xs hr hl
    subst hr
    simp [check_response, hl]
  · intro sendOk e h
    simp [tryBody, h]

/-- C5 (witness): the spec's Scenario 4 payload
`\x7b"homeworks": "not-a-list"\x7d` is rejected with the key-and-type
message. -/
theorem check_response_malformed_spec_witness :
    check_response (JValue.dict [("homeworks", JValue.str "not-a-list")])
      = .error (.typeError
          "Некорректный тип: <class \x27str\x27> у списка \x22homeworks\x22.") :=
  (check_response_malformed_spec
      (JValue.dict [("homeworks", JValue.str "not-a-list")])).2.1
    [("homeworks", JValue.str "not-a-list")] rfl
    (fun _ hx => JValue.noConfusion hx)

/-- C6: a valid payload whose `homeworks` sequence is empty makes the cycle
deliver zero notifications and still reach the cursor assignment — the loop
continues with `response.get(\x27current_date\x27)` as cursor. -/
theorem empty_homeworks_zero_sends (fields : List (String × JValue))
    (sendOk : Nat → Bool) (c : JValue)
    (h : assocGet fields "homeworks" = JValue.list []) :
    loopStep (Except.ok (JValue.dict fields)) sendOk c
      = StepOutcome.looped (assocGet fields "current_date") [] := by
  simp [loopStep, tryBody, check_response, h, notifyLoop, dictGetOr]

/-- C6 (witness): the empty-homeworks payload with `current_date` 42. -/
theorem empty_homeworks_zero_sends_witness :
    loopStep (Except.ok (JValue.dict
        [("homeworks", JValue.list []), ("current_date", JValue.int 42)]))
        (fun _ => true) (JValue.int 9)
      = StepOutcome.looped (JValue.int 42) [] :=
  empty_homeworks_zero_sends
    [("homeworks", JValue.list []), ("current_date", JValue.int 42)]
    (fun _ => true) (JValue.int 9) rfl

/-- C7: the spec's Scenario 1 payload produces exactly one notification with
the approved-verdict text, and the cursor becomes 1700000100. -/
theorem scenario1_poll_cycle :
    loopStep (Except.ok (JValue.dict
        [("homeworks", JValue.list [JValue.dict
            [("homework_name", JValue.str "task1"), ("status", JValue.str "approved")]]),
         ("current_date", JValue.int 1700000100)]))
        (fun _ => true) (JValue.int 0)
      = StepOutcome.looped (JValue.int 1700000100)
          ["Изменился статус проверки работы \x22task1\x22. Работа проверена: ревьюеру всё понравилось. Ура!"] := rfl

/-- C8: the messages a cycle delivers are a function of the payload and the
send capability's behaviour alone — the cursor does not influence them, so two
cycles run against identical payloads (in particular with the same cursor)
deliver identical notification text: there is no deduplication or suppression
state anywhere in the loop. -/
theorem notifications_deterministic_in_payload (r : JValue) (sendOk : Nat → Bool)
    (c cAlt : JValue) :
    sentOf (loopStep (Except.ok r) sendOk c)
      = sentOf (loopStep (Except.ok r) sendOk cAlt) := by
  unfold loopStep
  cases htb : tryBody (Except.ok r) sendOk with
  | ok x => rfl
  | error x =>
    obtain ⟨e, sent, k⟩ := x
    cases hsm : send_message (sendOk k) with
    | ok u => simp [hsm, sentOf]
    | error e2 => simp [hsm, sentOf]

/-- C9: `check_tokens` returns `True` exactly when all three secrets are set
and non-empty (an empty string is falsy, hence treated as missing); whenever
it returns `False` it has logged the critical missing-variable message, and
`main` never enters the polling loop. -/
theorem check_tokens_spec (env : Env) :
    ((check_tokens env).1 = true ↔
      ((∃ s, env.PRACTICUM_TOKEN = some s ∧ s ≠ "") ∧
       (∃ s, env.TELEGRAM_TOKEN = some s ∧ s ≠ "") ∧
       (∃ s, env.TELEGRAM_CHAT_ID = some s ∧ s ≠ "")))
    ∧ ((check_tokens env).1 = false →
        (check_tokens env).2 = ["Отсутствует обязательная переменная окружения: ."])
    ∧ mainEntersLoop env = (check_tokens env).1 := by
  refine ⟨?_, ?_, rfl⟩
  · rw [check_tokens_fst]
    simp [Bool.and_eq_true, pyTruthy_iff]
    tauto
  · intro hfalse
    by_cases h : (pyTruthy env.PRACTICUM_TOKEN && pyTruthy env.TELEGRAM_TOKEN
        && pyTruthy env.TELEGRAM_CHAT_ID) = true
    · rw [check_tokens_fst] at hfalse
      rw [h] at hfalse
      exact absurd hfalse (by simp)
    · simp [check_tokens, h]

/-- C9 (witness): with the bot token set to the empty string, the flag is
`False`, the critical message is logged, and the loop is not entered. -/
theorem check_tokens_spec_witness :
    (check_tokens ⟨some "a", some "", some "c"⟩).1 = false
    ∧ (check_tokens ⟨some "a", some "", some "c"⟩).2
        = ["Отсутствует обязательная переменная окружения: ."]
    ∧ mainEntersLoop ⟨some "a", some "", some "c"⟩ = false :=
  ⟨rfl, (check_tokens_spec ⟨some "a", some "", some "c"⟩).2.1 rfl, rfl⟩

/-- C10: `check_response` never inspects individual records: whenever the
`homeworks` value is a sequence it is returned unchanged, whatever its
elements; a non-mapping element only fails later, inside `parse_status`
(a string record lacks `.get`, a number record lacks `len`). -/
theorem check_response_no_element_validation (fields : List (String × JValue))
    (xs : List JValue) (h : assocGet fields "homeworks" = JValue.list xs) :
    check_response (JValue.dict fields) = .ok xs
    ∧ parse_status (JValue.str "task") = .error (.attributeError
        "\x27str\x27 object has no attribute \x27get\x27")
    ∧ parse_status (JValue.int 5) = .error (.typeError
        "object of type \x27int\x27 has no len()") :=
  ⟨by simp [check_response, h], rfl, rfl⟩

/-- C10 (witness): a `homeworks` sequence whose elements are a bare string and
a bare number passes validation unchanged. -/
theorem check_response_no_element_validation_witness :
    check_response (JValue.dict
        [("homeworks", JValue.list [JValue.str "task", JValue.int 5])])
      = .ok [JValue.str "task", JValue.int 5] :=
  (check_response_no_element_validation
      [("homeworks", JValue.list [JValue.str "task", JValue.int 5])]
      [JValue.str "task", JValue.int 5] rfl).1

end HomeworkBot
